import Mathlib

/-!
Verification of the station/climate data pipeline
(`src/Code.py`, `src/Main.py`) against its specification.

The pipeline's tables are shallowly embedded as Lean lists of records;
pandas cells that may hold a non-string (NaN) value are modelled by an
explicit sum type. External collaborators (the `us` state lookup table,
the Nominatim reverse geocoder) are parameters of the functions that
use them. String stripping and prefix tests are modelled on the
character lists underlying the strings, so that concrete instances
evaluate.
-/

namespace Cocci

/-- Whitespace test used by Python's `str.strip` / pandas field
stripping, restricted to the whitespace that occurs in the data. -/
def isSpaceChar (c : Char) : Bool :=
  c == ' ' || c == '\t' || c == '\n' || c == '\r'

/-- Strip leading and trailing whitespace from a character list. -/
def trimChars (cs : List Char) : List Char :=
  ((cs.dropWhile isSpaceChar).reverse.dropWhile isSpaceChar).reverse

/-- Python `str.strip()` on a string. -/
def strip (s : String) : String := String.mk (trimChars s.data)

/-- Python `s.startswith(pre)`. -/
def pyStartsWith (pre s : String) : Bool := pre.data.isPrefixOf s.data

/-! ## Code.py: `load_station_inventory`

`Code.py` reads the fixed-width registry with a single column spec
`(0, 11)` giving the station `ID` (pandas strips surrounding blanks),
derives a state abbreviation from every ID, and then keeps only the
rows whose ID starts with `"US"`. -/

/-- The `ID` field of a registry line: characters `0..11`, stripped, as
`pd.read_fwf` with colspec `(0, 11)` produces it. -/
def extractID (line : String) : String :=
  strip (String.mk (line.data.take 11))

/-- `''.join([char for char in station_code[2:] if char.isalpha()][:2])`
from `Code.py` line 17: drop the first two characters, keep the
alphabetic ones, take the first two. -/
def deriveStateAbbr (id : String) : String :=
  String.mk (((id.data.drop 2).filter Char.isAlpha).take 2)

/-- `load_station_inventory` of `Code.py` on an already-opened file,
given as its list of lines: build `(ID, State_Abbr)` rows for every
line, then filter to the rows whose ID starts with `"US"`. -/
def code_load_rows (lines : List String) : List (String × String) :=
  ((lines.map extractID).map (fun id => (id, deriveStateAbbr id))).filter
    (fun r => pyStartsWith "US" r.1)

/-- The spec's wording of the region-code derivation: scan the
characters from index 2 onward in order, collecting alphabetic
characters, stopping after the first `n` of them have been found. -/
def scanAlpha : Nat → List Char → List Char
  | _, [] => []
  | 0, _ => []
  | n + 1, c :: cs =>
    if c.isAlpha then c :: scanAlpha n cs else scanAlpha (n + 1) cs

lemma take_filter_eq_scanAlpha (cs : List Char) :
    ∀ n, ((cs.filter Char.isAlpha).take n) = scanAlpha n cs := by
  induction cs with
  | nil => intro n; cases n <;> simp [scanAlpha]
  | cons c cs ih =>
    intro n
    cases n with
    | zero => simp [scanAlpha]
    | succ n =>
      by_cases h : c.isAlpha
      · simp [scanAlpha, h, List.filter_cons, ih n]
      · simp [scanAlpha, h, List.filter_cons, ih (n + 1)]

lemma deriveStateAbbr_eq_scan (id : String) :
    deriveStateAbbr id = String.mk (scanAlpha 2 (id.data.drop 2)) := by
  unfold deriveStateAbbr
  rw [take_filter_eq_scanAlpha]

lemma deriveStateAbbr_length (id : String) :
    (deriveStateAbbr id).length ≤ 2 := by
  show (((id.data.drop 2).filter Char.isAlpha).take 2).length ≤ 2
  rw [List.length_take]
  exact min_le_left _ _

lemma deriveStateAbbr_alpha (id : String) :
    ∀ c ∈ (deriveStateAbbr id).data, c.isAlpha := by
  intro c hc
  have hc' : c ∈ (id.data.drop 2).filter Char.isAlpha :=
    List.take_subset _ _ hc
  exact List.of_mem_filter hc'

/-- **C1.** Every row of `Code.py`'s parsed station table carries, as its
`State_Abbr`, exactly the first two alphabetic characters found when
scanning the station identifier from index 2 onward in order; hence the
derived abbreviation has length at most 2 and is entirely alphabetic. -/
theorem C1_region_code_derivation (lines : List String)
    (r : String × String) (hr : r ∈ code_load_rows lines) :
    r.2 = String.mk (scanAlpha 2 (r.1.data.drop 2)) ∧
    r.2.length ≤ 2 ∧ ∀ c ∈ r.2.data, c.isAlpha := by
  unfold code_load_rows at hr
  have hm := List.mem_of_mem_filter hr
  rcases List.mem_map.1 hm with ⟨id, _, rfl⟩
  exact ⟨deriveStateAbbr_eq_scan id, deriveStateAbbr_length id,
    deriveStateAbbr_alpha id⟩

/-- Witness for C1 at the concrete registry line
`"US1AZMR0001  33.40 -112.07"`: its ID is `"US1AZMR0001"` and the
derived abbreviation is `"AZ"`, satisfying all three conclusions. -/
theorem C1_region_code_derivation_witness :
    ("US1AZMR0001", "AZ") ∈ code_load_rows ["US1AZMR0001  33.40 -112.07"] ∧
    ("AZ" : String) = String.mk (scanAlpha 2 (("US1AZMR0001" : String).data.drop 2)) ∧
    ("AZ" : String).length ≤ 2 ∧ ∀ c ∈ ("AZ" : String).data, c.isAlpha := by
  have hmem : ("US1AZMR0001", "AZ") ∈
      code_load_rows ["US1AZMR0001  33.40 -112.07"] := by decide
  have h := C1_region_code_derivation ["US1AZMR0001  33.40 -112.07"]
    ("US1AZMR0001", "AZ") hmem
  exact ⟨hmem, h⟩

/-- **C9.** Every record returned by `Code.py`'s station-inventory parse
has an identifier starting with `"US"`, and an identifier that does not
start with `"US"` never appears in the returned table. -/
theorem C9_us_only_filter (lines : List String) :
    (∀ r ∈ code_load_rows lines, pyStartsWith "US" r.1 = true) ∧
    (∀ id : String, pyStartsWith "US" id = false →
      ∀ ab : String, (id, ab) ∉ code_load_rows lines) := by
  constructor
  · intro r hr
    unfold code_load_rows at hr
    exact (List.mem_filter.mp hr).2
  · intro id hid ab hmem
    unfold code_load_rows at hmem
    have : pyStartsWith "US" (id, ab).1 = true := (List.mem_filter.mp hmem).2
    rw [hid] at this
    exact Bool.false_ne_true this

/-- Witness for C9: parsing one US line and one Canadian line keeps only
the US row, and the Canadian ID `"CA002100805"` is absent. -/
theorem C9_us_only_filter_witness :
    (∀ r ∈ code_load_rows ["US1AZMR0001  33.40", "CA002100805  68.31"],
      pyStartsWith "US" r.1 = true) ∧
    ("CA002100805", "CA") ∉
      code_load_rows ["US1AZMR0001  33.40", "CA002100805  68.31"] := by
  have h := C9_us_only_filter ["US1AZMR0001  33.40", "CA002100805  68.31"]
  exact ⟨h.1, h.2 "CA002100805" (by decide) "CA"⟩

/-! ## Pandas cells and `Main.py`'s `state_abbr_to_full`

A pandas cell read from a text column either holds a string or holds
the float `NaN` (pandas' encoding of a blank fixed-width field); the
`Cell` type makes that explicit. -/

/-- A value in a pandas text column: a string, or the non-string `NaN`
placeholder pandas puts in blank fields. -/
inductive Cell where
  | str (s : String)
  | nan
deriving DecidableEq

/-- `state_abbr_to_full` from `Main.py` lines 68-73: a non-string or
blank/whitespace-only value yields `""`; otherwise the value is looked
up in the `us.states` table (an external collaborator, passed in as
`lookup`), returning the full name on a hit and the input unchanged on
a miss. -/
def state_abbr_to_full (lookup : String → Option String) (v : Cell) :
    String :=
  match v with
  | .nan => ""
  | .str s =>
    if strip s = "" then ""
    else
      match lookup s with
      | some full => full
      | none => s

/-- **C5.** For a non-blank string code, full-name resolution returns
the looked-up full name when the code→name table has an entry, and
passes the code through unchanged when it has none. -/
theorem C5_unresolved_codes_pass_through
    (lookup : String → Option String) (s : String)
    (hs : strip s ≠ "") :
    (lookup s = none → state_abbr_to_full lookup (Cell.str s) = s) ∧
    (∀ full, lookup s = some full →
      state_abbr_to_full lookup (Cell.str s) = full) := by
  constructor
  · intro hnone
    simp [state_abbr_to_full, hs, hnone]
  · intro full hfull
    simp [state_abbr_to_full, hs, hfull]

/-- Witness for C5 with the two-entry table `{AZ ↦ Arizona}`: the
resolvable code `"AZ"` maps to `"Arizona"` and the unknown code `"ZZ"`
passes through as `"ZZ"`. -/
theorem C5_unresolved_codes_pass_through_witness :
    state_abbr_to_full
      (fun c => if c = "AZ" then some "Arizona" else none) (Cell.str "AZ")
      = "Arizona" ∧
    state_abbr_to_full
      (fun c => if c = "AZ" then some "Arizona" else none) (Cell.str "ZZ")
      = "ZZ" := by
  constructor
  · exact (C5_unresolved_codes_pass_through
      (fun c => if c = "AZ" then some "Arizona" else none) "AZ"
      (by decide)).2 "Arizona" (by decide)
  · exact (C5_unresolved_codes_pass_through
      (fun c => if c = "AZ" then some "Arizona" else none) "ZZ"
      (by decide)).1 (by decide)

/-- **C10.** `state_abbr_to_full` is total over arbitrary cell values:
any non-string cell (NaN) and any blank or whitespace-only string is
mapped to `""`, for every lookup table, with no failure path. -/
theorem C10_state_lookup_total
    (lookup : String → Option String) (v : Cell)
    (h : v = Cell.nan ∨ ∃ s, v = Cell.str s ∧ strip s = "") :
    state_abbr_to_full lookup v = "" := by
  rcases h with h | ⟨s, rfl, hs⟩
  · rw [h]; rfl
  · simp [state_abbr_to_full, hs]

/-- Witness for C10: both the NaN cell and the whitespace-only string
`"  "` resolve to `""` under an arbitrary concrete table. -/
theorem C10_state_lookup_total_witness :
    state_abbr_to_full (fun _ => some "Arizona") Cell.nan = "" ∧
    state_abbr_to_full (fun _ => some "Arizona") (Cell.str "  ") = "" := by
  constructor
  · exact C10_state_lookup_total (fun _ => some "Arizona") Cell.nan
      (Or.inl rfl)
  · exact C10_state_lookup_total (fun _ => some "Arizona")
      (Cell.str "  ") (Or.inr ⟨"  ", rfl, by decide⟩)

/-! ## Dual-Source Reconciler -/

/-- Modelled from the spec: the Dual-Source Reconciler (spec section
4.4) has no implementation under `src/` — only the station parser,
state handling and merge components appear there — so its value-level
resolution rule is taken from the spec's words: relative difference is
`|v1 - v2| / avg` with `avg = (v1 + v2) / 2`, and `0` when `avg = 0`. -/
def rel_diff (v1 v2 : ℚ) : ℚ :=
  let avg := (v1 + v2) / 2
  if avg = 0 then 0 else |v1 - v2| / avg

/-- Modelled from the spec: per-pair resolution of the Dual-Source
Reconciler for two present values — if `rel_diff < threshold` the
result is the average, else the minimum of the two. -/
def reconcile_pair (threshold v1 v2 : ℚ) : ℚ :=
  if rel_diff v1 v2 < threshold then (v1 + v2) / 2 else min v1 v2

/-- **C2.** The reconciler returns the average when the relative
difference is below the threshold and the minimum otherwise; at
threshold `0.1` the pair `(100, 105)` reconciles to `102.5` and the
pair `(100, 130)` to `100`. -/
theorem C2_reconciler (v1 v2 t : ℚ) :
    (rel_diff v1 v2 < t → reconcile_pair t v1 v2 = (v1 + v2) / 2) ∧
    (¬ rel_diff v1 v2 < t → reconcile_pair t v1 v2 = min v1 v2) ∧
    reconcile_pair (1 / 10) 100 105 = 205 / 2 ∧
    reconcile_pair (1 / 10) 100 130 = 100 := by
  refine ⟨fun h => if_pos h, fun h => if_neg h, ?_, ?_⟩
  · have hrd : rel_diff 100 105 = 2 / 41 := by
      norm_num [rel_diff]
    rw [reconcile_pair, hrd]
    norm_num
  · have hrd : rel_diff 100 130 = 6 / 23 := by
      norm_num [rel_diff, abs_of_nonpos]
    rw [reconcile_pair, hrd]
    have : ¬ (6 / 23 : ℚ) < 1 / 10 := by norm_num
    rw [if_neg this]
    norm_num [min_def]

/-- Witness for C2: the general average/minimum branches applied at the
concrete pairs `(100, 105)` and `(100, 130)` with threshold `0.1`. -/
theorem C2_reconciler_witness :
    reconcile_pair (1 / 10) 100 105 = (100 + 105) / 2 ∧
    reconcile_pair (1 / 10) 100 130 = min 100 130 := by
  constructor
  · exact (C2_reconciler 100 105 (1 / 10)).1
      (by norm_num [rel_diff])
  · exact (C2_reconciler 100 130 (1 / 10)).2.1
      (by norm_num [rel_diff, abs_of_nonpos])

/-! ## Main.py: `load_station_inventory`

`Main.py` reads the registry with colspecs
`(0,11) (12,20) (21,30) (31,37) (38,68) (69,71) ...`, strips the text
columns and coerces `Latitude`, `Longitude`, `Elevation` with
`pd.to_numeric(errors="coerce")`: an unparseable value becomes `NaN`
(here `none`), never an error. -/

/-- The stripped text of the fixed-width field spanning columns
`[a, b)` of a registry line. -/
def extractField (line : String) (a b : Nat) : String :=
  strip (String.mk ((line.data.drop a).take (b - a)))

/-- The cell pandas produces for a text field: `NaN` when the stripped
field is empty, the stripped string otherwise. -/
def extractCell (line : String) (a b : Nat) : Cell :=
  if extractField line a b = "" then Cell.nan
  else Cell.str (extractField line a b)

/-- Value of a digit string read in base 10. -/
def digitsToNat (cs : List Char) : Nat :=
  cs.foldl (fun a c => a * 10 + (c.toNat - 48)) 0

/-- `pd.to_numeric(errors="coerce")` on one cell: strip, accept an
optional sign followed by a plain decimal numeral, and return `none`
(pandas `NaN`) on anything else. -/
def parseNumeric (s : String) : Option ℚ :=
  let t := trimChars s.data
  let sb : ℚ × List Char :=
    match t with
    | '-' :: rest => (-1, rest)
    | '+' :: rest => (1, rest)
    | l => (1, l)
  match (sb.2).splitOn '.' with
  | [ip] =>
    if !ip.isEmpty && ip.all Char.isDigit then
      some (sb.1 * (digitsToNat ip : ℚ))
    else none
  | [ip, fp] =>
    if (!ip.isEmpty || !fp.isEmpty) && ip.all Char.isDigit
        && fp.all Char.isDigit then
      some (sb.1 * ((digitsToNat ip : ℚ)
        + (digitsToNat fp : ℚ) / (10 : ℚ) ^ fp.length))
    else none
  | _ => none

/-- A station record as `Main.py`'s `load_station_inventory` produces
it (the auxiliary flag columns, unused downstream, are omitted). -/
structure StationMain where
  id : String
  latitude : Option ℚ
  longitude : Option ℚ
  elevation : Option ℚ
  station_name : String
  state : Cell
deriving DecidableEq

/-- One line of the registry parsed per `Main.py`'s colspecs, text
columns stripped, numeric columns permissively coerced. -/
def parseStationLine (line : String) : StationMain :=
  { id := extractField line 0 11
    latitude := parseNumeric (extractField line 12 20)
    longitude := parseNumeric (extractField line 21 30)
    elevation := parseNumeric (extractField line 31 37)
    station_name := extractField line 38 68
    state := extractCell line 69 71 }

/-- `Main.py`'s `load_station_inventory` on an opened file given as its
list of lines. -/
def main_load_station_inventory (lines : List String) : List StationMain :=
  lines.map parseStationLine

/-- **C4.** Numeric station fields are parsed permissively: a latitude,
longitude or elevation value that fails numeric parsing becomes `none`
(missing) in the record, no line is dropped or aborts the parse, and
the remaining fields of the same record are still extracted. -/
theorem C4_permissive_numeric_parse (lines : List String) (line : String)
    (h : line ∈ lines) :
    (main_load_station_inventory lines).length = lines.length ∧
    parseStationLine line ∈ main_load_station_inventory lines ∧
    (parseNumeric (extractField line 12 20) = none →
      (parseStationLine line).latitude = none) ∧
    (parseNumeric (extractField line 21 30) = none →
      (parseStationLine line).longitude = none) ∧
    (parseNumeric (extractField line 31 37) = none →
      (parseStationLine line).elevation = none) ∧
    (parseStationLine line).id = extractField line 0 11 ∧
    (parseStationLine line).state = extractCell line 69 71 := by
  refine ⟨List.length_map _ _, List.mem_map_of_mem _ h, ?_, ?_, ?_,
    rfl, rfl⟩ <;> exact fun h' => h'

/-- Witness for C4 at a registry line whose latitude field holds the
non-numeric text `GARBAGE`: the line still parses, its latitude is
missing, and the ID field is still extracted. -/
theorem C4_permissive_numeric_parse_witness :
    (main_load_station_inventory
      ["US1AZMR0001 GARBAGE  -112.0700  331.1 PHOENIX                        AZ"]).length = 1 ∧
    (parseStationLine
      "US1AZMR0001 GARBAGE  -112.0700  331.1 PHOENIX                        AZ").latitude = none ∧
    (parseStationLine
      "US1AZMR0001 GARBAGE  -112.0700  331.1 PHOENIX                        AZ").id
      = extractField
        "US1AZMR0001 GARBAGE  -112.0700  331.1 PHOENIX                        AZ" 0 11 := by
  have h := C4_permissive_numeric_parse
    ["US1AZMR0001 GARBAGE  -112.0700  331.1 PHOENIX                        AZ"]
    "US1AZMR0001 GARBAGE  -112.0700  331.1 PHOENIX                        AZ"
    (List.mem_singleton.mpr rfl)
  exact ⟨h.1, h.2.2.1 (by decide), h.2.2.2.2.2.1⟩

/-! ## Station–observation merge

`Main.py` line 122 (and analogously `Code.py` line 108) computes
`pd.merge(df_climate, df_stations[["ID", "State_Full"]],
left_on="STATION", right_on="ID", how="left")`: a left outer join of
the observation rows onto the station table. -/

/-- An observation row of the climate table after column renaming:
its station identifier together with its remaining payload cells. -/
structure ObsRow where
  station : String
  date : String
  prcp : Cell
  tavg : Cell
deriving DecidableEq

/-- The projection `df_stations[["ID", "State_Full"]]` of the station
table used as the right side of the merge. -/
structure StationKV where
  id : String
  state_full : String
deriving DecidableEq

/-- The output rows one observation contributes to the left join: one
pair per station row of matching identifier, and the single pair with
`none` (pandas `NaN` in the joined columns) when no station matches. -/
def merge_row (sts : List StationKV) (o : ObsRow) :
    List (ObsRow × Option String) :=
  match sts.filter (fun s => s.id == o.station) with
  | [] => [(o, none)]
  | m :: ms => (m :: ms).map (fun s => (o, some s.state_full))

/-- `pd.merge(..., how="left")` on `STATION = ID`: the concatenation,
in observation order, of each observation's joined rows. -/
def left_merge : List ObsRow → List StationKV → List (ObsRow × Option String)
  | [], _ => []
  | o :: rest, sts => merge_row sts o ++ left_merge rest sts

lemma merge_row_self_mem (sts : List StationKV) (o : ObsRow) :
    ∃ x, (o, x) ∈ merge_row sts o := by
  rcases hf : sts.filter (fun s => s.id == o.station) with _ | ⟨m, ms⟩
  · refine ⟨none, ?_⟩
    simp only [merge_row, hf]
    exact List.mem_singleton.mpr rfl
  · refine ⟨some m.state_full, ?_⟩
    simp only [merge_row, hf]
    exact List.mem_map_of_mem _ (List.mem_cons_self m ms)

lemma merge_row_unmatched (sts : List StationKV) (o : ObsRow)
    (h : ∀ s ∈ sts, s.id ≠ o.station) :
    merge_row sts o = [(o, none)] := by
  have hf : sts.filter (fun s => s.id == o.station) = [] := by
    rw [List.filter_eq_nil_iff]
    intro s hs
    simpa using h s hs
  simp only [merge_row, hf]

/-- **C3.** The merge has left-outer semantics: every observation row
appears in the merged output, and an observation whose station
identifier matches no station record is retained, paired with a null
state attribute, rather than dropped. -/
theorem C3_left_outer_merge (obs : List ObsRow) (sts : List StationKV)
    (o : ObsRow) (ho : o ∈ obs) :
    (∃ x, (o, x) ∈ left_merge obs sts) ∧
    ((∀ s ∈ sts, s.id ≠ o.station) → (o, none) ∈ left_merge obs sts) := by
  induction obs with
  | nil => cases ho
  | cons p rest ih =>
    rcases List.mem_cons.1 ho with rfl | ho'
    · constructor
      · rcases merge_row_self_mem sts o with ⟨x, hx⟩
        exact ⟨x, List.mem_append_left _ hx⟩
      · intro hnone
        show (o, none) ∈ merge_row sts o ++ left_merge rest sts
        rw [merge_row_unmatched sts o hnone]
        exact List.mem_append_left _ (List.mem_singleton.mpr rfl)
    · have h' := ih ho'
      constructor
      · rcases h'.1 with ⟨x, hx⟩
        exact ⟨x, List.mem_append_right _ hx⟩
      · intro hnone
        exact List.mem_append_right _ (h'.2 hnone)

/-- Witness for C3: with one station `("US1AZMR0001", "Arizona")`, a
matched observation appears in the merge and an unmatched observation
for station `"MX000076680"` is retained with a null state. -/
theorem C3_left_outer_merge_witness :
    (∃ x, (ObsRow.mk "MX000076680" "2019" Cell.nan Cell.nan, x) ∈
      left_merge
        [ObsRow.mk "US1AZMR0001" "2019" Cell.nan Cell.nan,
         ObsRow.mk "MX000076680" "2019" Cell.nan Cell.nan]
        [StationKV.mk "US1AZMR0001" "Arizona"]) ∧
    (ObsRow.mk "MX000076680" "2019" Cell.nan Cell.nan, none) ∈
      left_merge
        [ObsRow.mk "US1AZMR0001" "2019" Cell.nan Cell.nan,
         ObsRow.mk "MX000076680" "2019" Cell.nan Cell.nan]
        [StationKV.mk "US1AZMR0001" "Arizona"] := by
  have h := C3_left_outer_merge
    [ObsRow.mk "US1AZMR0001" "2019" Cell.nan Cell.nan,
     ObsRow.mk "MX000076680" "2019" Cell.nan Cell.nan]
    [StationKV.mk "US1AZMR0001" "Arizona"]
    (ObsRow.mk "MX000076680" "2019" Cell.nan Cell.nan)
    (by decide)
  refine ⟨h.1, h.2 ?_⟩
  intro s hs
  rcases List.mem_singleton.mp hs with rfl
  decide

/-! ## File access failure

`Code.py` wraps its loader in `try/except`, reports the error and
returns `None`; its caller checks `if df_stations is not None` and
otherwise shows "No data to display.".  `Main.py`'s loader performs no
handling, so an open failure propagates to its caller as the raised
exception. -/

/-- Failure to open a source file. -/
inductive FileAccessError where
  | cannotOpen
deriving DecidableEq

/-- `Code.py`'s `load_station_inventory` including its `try/except`:
the argument is the result of opening the file; on failure the function
returns `None` (here `none`) after reporting, on success the parsed
table. -/
def load_station_inventory_code
    (file : Except FileAccessError (List String)) :
    Option (List (String × String)) :=
  match file with
  | .error _ => none
  | .ok lines => some (code_load_rows lines)

/-- The caller's branch in `Code.py` lines 48-53: display the table
when one was produced, otherwise the "no data" message. -/
def code_caller_view (t : Option (List (String × String))) : String :=
  match t with
  | none => "No data to display."
  | some _ => "Station Inventory Table (ID starts with 'US')"

/-- `Main.py`'s `load_station_inventory` seen from its caller: no
handler, so an open failure is propagated unchanged. -/
def load_station_inventory_main
    (file : Except FileAccessError (List String)) :
    Except FileAccessError (List StationMain) :=
  match file with
  | .error e => .error e
  | .ok lines => .ok (main_load_station_inventory lines)

/-- **C6.** When the registry file cannot be opened the parser fails
and produces no station records — `Code.py`'s version signals `None`
and its caller chooses to continue with the no-data branch, and
`Main.py`'s version propagates the `FileAccessError` to its caller —
while an openable file yields the parsed records. -/
theorem C6_file_access_failure (e : FileAccessError) :
    load_station_inventory_code (Except.error e) = none ∧
    (∀ rows, load_station_inventory_code (Except.error e) ≠ some rows) ∧
    code_caller_view (load_station_inventory_code (Except.error e))
      = "No data to display." ∧
    load_station_inventory_main (Except.error e) = Except.error e ∧
    (∀ lines, load_station_inventory_code (Except.ok lines)
      = some (code_load_rows lines)) := by
  exact ⟨rfl, fun rows h => Option.noConfusion h, rfl, rfl, fun _ => rfl⟩

/-! ## Reverse-geocoding fill of missing states

`Main.py` lines 50-66: `get_state_from_coords` keeps a truthy `State`
value, otherwise asks the external reverse geocoder and extracts
`address.get("state", "")`; any exception or empty result yields `""`.
The fill is applied exactly to the rows whose `State` equals the empty
string. -/

/-- Python truthiness of a cell: `NaN` (a float) is truthy; a string is
truthy iff it is non-empty. -/
def truthyCell : Cell → Bool
  | .nan => true
  | .str s => !(s == "")

/-- What `location.raw.get("address", {}).get("state", "")` exposes of
a reverse-geocoding result: the state entry, when present. -/
structure GeoLocation where
  addrState : Option String
deriving DecidableEq

/-- `get_state_from_coords` from `Main.py`: the external geocoder is a
parameter taking the row's coordinates and either failing (the `except`
branch) or returning an optional location. -/
def get_state_from_coords
    (geocode : Option ℚ → Option ℚ → Except Unit (Option GeoLocation))
    (row : StationMain) : Cell :=
  if truthyCell row.state then row.state
  else
    match geocode row.latitude row.longitude with
    | .error _ => .str ""
    | .ok none => .str ""
    | .ok (some loc) => .str (loc.addrState.getD "")

/-- The per-row effect of
`df_stations.loc[mask_missing_state, "State"] = ...apply(get_state_from_coords)`:
rows whose `State` is the empty string receive the geocoded value,
every other row is untouched. -/
def fill_step
    (geocode : Option ℚ → Option ℚ → Except Unit (Option GeoLocation))
    (r : StationMain) : StationMain :=
  if r.state = Cell.str "" then
    { r with state := get_state_from_coords geocode r }
  else r

/-- The masked assignment of `Main.py` line 66 over the whole table. -/
def fill_missing_states
    (geocode : Option ℚ → Option ℚ → Except Unit (Option GeoLocation))
    (sts : List StationMain) : List StationMain :=
  sts.map (fill_step geocode)

/-! ## Immutability of parsed station records

After `Main.py` parses the registry, two further operations touch the
station table before the merge: the masked reverse-geocoding
assignment and the addition of the `State_Full` column.  Because the
parser turns a blank state field into `NaN` (never the empty string),
the mask never selects a parsed record, and the `State_Full` step only
appends an attribute. -/

/-- A station record after `Main.py` line 75 added the `State_Full`
column. -/
structure StationFull where
  base : StationMain
  state_full : String
deriving DecidableEq

/-- `df_stations["State_Full"] = df_stations["State"].apply(state_abbr_to_full)`:
each record keeps all its fields and gains the resolved full name. -/
def add_state_full (lookup : String → Option String)
    (sts : List StationMain) : List StationFull :=
  sts.map (fun r => ⟨r, state_abbr_to_full lookup r.state⟩)

lemma extractCell_ne_empty_str (line : String) (a b : Nat) :
    extractCell line a b ≠ Cell.str "" := by
  unfold extractCell
  split
  · exact fun h => Cell.noConfusion h
  · rename_i hne
    exact fun h => hne (Cell.str.inj h)

lemma fill_step_parsed (geocode : Option ℚ → Option ℚ →
    Except Unit (Option GeoLocation)) (line : String) :
    fill_step geocode (parseStationLine line) = parseStationLine line := by
  unfold fill_step
  rw [if_neg]
  show ¬ extractCell line 69 71 = Cell.str ""
  exact extractCell_ne_empty_str line 69 71

/-- **C7.** Evidence of the code bug: a registry line whose state
columns are blank parses to the NaN cell, which is not the empty
string the mask `df["State"] == ""` tests, so the fill leaves the
record untouched even when the geocoder would answer — and inside
`get_state_from_coords` the NaN state is truthy and is returned
unchanged — so the state of a record with a blank state field is never
derived from its coordinates, although the code's own comment says
"For stations missing a state, fill in via reverse geocoding". -/
theorem C7_blank_state_never_geocoded :
    (parseStationLine "US1AZMR0003   33.4000 -112.0700").state = Cell.nan ∧
    (parseStationLine "US1AZMR0003   33.4000 -112.0700").state ≠ Cell.str "" ∧
    fill_missing_states
      (fun _ _ => Except.ok (some (GeoLocation.mk (some "Arizona"))))
      [parseStationLine "US1AZMR0003   33.4000 -112.0700"]
      = [parseStationLine "US1AZMR0003   33.4000 -112.0700"] ∧
    get_state_from_coords
      (fun _ _ => Except.ok (some (GeoLocation.mk (some "Arizona"))))
      (parseStationLine "US1AZMR0003   33.4000 -112.0700")
      = Cell.nan := by
  refine ⟨by decide, by decide, ?_, ?_⟩
  · show [fill_step _ (parseStationLine _)] = _
    rw [fill_step_parsed]
  · have hnan : (parseStationLine "US1AZMR0003   33.4000 -112.0700").state
        = Cell.nan := by decide
    rw [get_state_from_coords, hnan]
    rfl

/-- **C8.** No operation between the registry parse and the merge
changes any field of a parsed station record: the reverse-geocoding
fill leaves the parsed table exactly as parsed (a parsed blank state is
`NaN`, never the empty string the mask selects), and the `State_Full`
step only appends an attribute, so projecting it away returns the
parsed table unchanged. -/
theorem C8_parsed_records_immutable
    (geocode : Option ℚ → Option ℚ → Except Unit (Option GeoLocation))
    (lookup : String → Option String) (lines : List String) :
    fill_missing_states geocode (main_load_station_inventory lines)
      = main_load_station_inventory lines ∧
    (add_state_full lookup
      (fill_missing_states geocode (main_load_station_inventory lines))).map
        StationFull.base
      = main_load_station_inventory lines := by
  have hfill : fill_missing_states geocode
      (main_load_station_inventory lines)
      = main_load_station_inventory lines := by
    unfold fill_missing_states main_load_station_inventory
    rw [List.map_map]
    exact List.map_congr_left (fun line _ => fill_step_parsed geocode line)
  refine ⟨hfill, ?_⟩
  rw [hfill]
  unfold add_state_full
  rw [List.map_map]
  have hid : ∀ r ∈ main_load_station_inventory lines,
      (StationFull.base ∘ fun r =>
        (⟨r, state_abbr_to_full lookup r.state⟩ : StationFull)) r = id r :=
    fun r _ => rfl
  rw [List.map_congr_left hid, List.map_id]

end Cocci
